import Mathlib

/-!
Shallow embedding of `sqs_utils/__init__.py` (class `SqsUtils`).

The external queue service (boto3 SQS client/resource) is an opaque
collaborator: each facade operation takes the relevant service calls as
explicit function parameters (oracles) and returns, besides its result, the
list of requests it issued.  Python strings are Lean `String`s, byte strings
(`str.encode('utf-8')`) are `List Nat` of byte values, and `hashlib.sha1` is
embedded as a full executable SHA-1 over byte lists.
-/

namespace SqsUtils

/-- UTF-8 encoding of a single character, as byte values (mirrors Python
`str.encode('utf-8')` per code point). -/
def utf8Char (c : Char) : List Nat :=
  let n := c.toNat
  if n < 128 then [n]
  else if n < 2048 then [192 + n / 64, 128 + n % 64]
  else if n < 65536 then [224 + n / 4096, 128 + n / 64 % 64, 128 + n % 64]
  else [240 + n / 262144, 128 + n / 4096 % 64, 128 + n / 64 % 64, 128 + n % 64]

/-- UTF-8 encoding of a string, mirroring Python `message.encode('utf-8')`. -/
def utf8Bytes (s : String) : List Nat :=
  (s.data.map utf8Char).flatten

/-- Rotate a 32-bit word (a `Nat` below `2 ^ 32`) left by `n` bits. -/
def rotl32 (n x : Nat) : Nat :=
  ((x <<< n) % 4294967296) ||| (x >>> (32 - n))

/-- SHA-1 message padding: append `0x80`, zero bytes, and the 64-bit
big-endian bit length, so the total length is a multiple of 64. -/
def sha1pad (msg : List Nat) : List Nat :=
  let ml := 8 * msg.length
  let zeros := (64 - (msg.length + 9) % 64) % 64
  msg ++ [128] ++ List.replicate zeros 0 ++
    (List.range 8).map (fun i => ml / 256 ^ (7 - i) % 256)

/-- Split a 64-byte chunk into sixteen 32-bit big-endian words. -/
def wordsOfChunk (chunk : List Nat) : List Nat :=
  (List.range 16).map fun i =>
    chunk.getD (4 * i) 0 * 16777216 + chunk.getD (4 * i + 1) 0 * 65536 +
      chunk.getD (4 * i + 2) 0 * 256 + chunk.getD (4 * i + 3) 0

/-- Extend sixteen words to the eighty SHA-1 schedule words. -/
def extendWords (ws : List Nat) : List Nat :=
  ((List.range 64).foldl
    (fun acc _ =>
      rotl32 1 ((acc.getD 2 0) ^^^ (acc.getD 7 0) ^^^ (acc.getD 13 0) ^^^ (acc.getD 15 0)) :: acc)
    ws.reverse).reverse

/-- One SHA-1 round: update the five-word state with round index `i` and
schedule word `w`. -/
def sha1round (st : Nat × Nat × Nat × Nat × Nat) (i w : Nat) :
    Nat × Nat × Nat × Nat × Nat :=
  let a := st.1
  let b := st.2.1
  let c := st.2.2.1
  let d := st.2.2.2.1
  let e := st.2.2.2.2
  let f :=
    if i < 20 then (b &&& c) ||| ((b ^^^ 4294967295) &&& d)
    else if i < 40 then b ^^^ c ^^^ d
    else if i < 60 then (b &&& c) ||| (b &&& d) ||| (c &&& d)
    else b ^^^ c ^^^ d
  let k :=
    if i < 20 then 1518500249
    else if i < 40 then 1859775393
    else if i < 60 then 2400959708
    else 3395469782
  let temp := (rotl32 5 a + f + e + k + w) % 4294967296
  (temp, a, rotl32 30 b, c, d)

/-- Process one 64-byte chunk, updating the five hash words. -/
def sha1chunk (h : Nat × Nat × Nat × Nat × Nat) (chunk : List Nat) :
    Nat × Nat × Nat × Nat × Nat :=
  let ws := extendWords (wordsOfChunk chunk)
  let fin := ((List.range 80).zip ws).foldl (fun st iw => sha1round st iw.1 iw.2) h
  ((h.1 + fin.1) % 4294967296,
   (h.2.1 + fin.2.1) % 4294967296,
   (h.2.2.1 + fin.2.2.1) % 4294967296,
   (h.2.2.2.1 + fin.2.2.2.1) % 4294967296,
   (h.2.2.2.2 + fin.2.2.2.2) % 4294967296)

/-- Big-endian bytes of a 32-bit word. -/
def word32be (w : Nat) : List Nat :=
  [w / 16777216 % 256, w / 65536 % 256, w / 256 % 256, w % 256]

/-- Big-endian byte serialization of the five-word SHA-1 state. -/
def digestBytes (hs : Nat × Nat × Nat × Nat × Nat) : List Nat :=
  word32be hs.1 ++ word32be hs.2.1 ++ word32be hs.2.2.1 ++
    word32be hs.2.2.2.1 ++ word32be hs.2.2.2.2

/-- SHA-1 digest of a byte list: the 20-byte digest, as in Python
`hashlib.sha1(s).digest()`. -/
def sha1 (msg : List Nat) : List Nat :=
  let padded := sha1pad msg
  digestBytes ((List.range (padded.length / 64)).foldl
    (fun h i => sha1chunk h ((padded.drop (64 * i)).take 64))
    (1732584193, 4023233417, 2562383102, 271733878, 3285377520))

/-- Lowercase hexadecimal character for a value below 16. -/
def hexChar (n : Nat) : Char :=
  if n < 10 then Char.ofNat (48 + n) else Char.ofNat (87 + n)

/-- Two lowercase hex characters of one byte. -/
def byteHex (b : Nat) : List Char :=
  [hexChar (b / 16), hexChar (b % 16)]

/-- Hex-encoded SHA-1 digest, as in Python `hashlib.sha1(s).hexdigest()`. -/
def hexdigest (msg : List Nat) : String :=
  String.mk ((sha1 msg).map byteHex).flatten

/-- Default `fun_identify` of `send_batch`:
`lambda s: hashlib.sha1(s).hexdigest()` applied to the UTF-8 bytes. -/
def fun_identify_default : List Nat → String :=
  fun s => hexdigest s

/-- Default `fun_deduplicate` of `send_batch`:
`lambda s: hashlib.sha1(s).hexdigest()` applied to the UTF-8 bytes. -/
def fun_deduplicate_default : List Nat → String :=
  fun s => hexdigest s

/-- A send entry dict built by `send_batch`; the two FIFO-only keys are
`Option` so that `entry.pop(...)` is `none`. -/
structure SendEntry where
  MessageBody : String
  MessageGroupId : Option String
  Id : String
  MessageDeduplicationId : Option String
deriving DecidableEq, Repr

/-- A delete entry dict built by `remove_batch`. -/
structure DeleteEntry where
  Id : String
  ReceiptHandle : String
deriving DecidableEq, Repr

/-- A received message, mirroring the `Body` and `ReceiptHandle` keys of an
SQS message dict. -/
structure Message where
  Body : String
  ReceiptHandle : String
deriving DecidableEq, Repr

/-- A `botocore` `ClientError`, carrying `error.response['Error']['Code']`
and the rest of the error payload (modelled by its message). -/
structure ClientError where
  Code : String
  Msg : String
deriving DecidableEq, Repr

/-- One network request issued by the facade to the queue service. -/
inductive Request where
  | getQueueByName (QueueName : String)
  | sendMessages (Entries : List SendEntry)
  | getQueueUrl (QueueName : String)
  | deleteMessageBatch (QueueUrl : String) (Entries : List DeleteEntry)
  | receiveMessage (QueueUrl : String) (MaxNumberOfMessages VisibilityTimeout WaitTimeSeconds : Int)
deriving DecidableEq, Repr

/-- The test `fifo = queue_name.lower().endswith('.fifo')` in `send_batch`. -/
def fifo (queue_name : String) : Bool :=
  queue_name.toLower.endsWith ".fifo"

/-- The entry list comprehension of `send_batch`: every entry carries the
body, the group id, `Id = fun_identify(message.encode('utf-8'))` and
`MessageDeduplicationId = fun_deduplicate(message.encode('utf-8'))`. -/
def send_entries (batch : List String) (group_id : String)
    (fun_identify fun_deduplicate : List Nat → String) : List SendEntry :=
  batch.map fun message =>
    { MessageBody := message
      MessageGroupId := some group_id
      Id := fun_identify (utf8Bytes message)
      MessageDeduplicationId := some (fun_deduplicate (utf8Bytes message)) }

/-- The `entry.pop('MessageDeduplicationId'); entry.pop('MessageGroupId')`
loop body applied to one entry. -/
def strip_non_fifo (e : SendEntry) : SendEntry :=
  { e with MessageDeduplicationId := none, MessageGroupId := none }

/-- The entries `send_batch` actually dispatches: the built entries, with the
two FIFO-only keys popped when the queue is not FIFO. -/
def dispatched_entries (batch : List String) (queue_name group_id : String)
    (fun_identify fun_deduplicate : List Nat → String) : List SendEntry :=
  if fifo queue_name = false then
    (send_entries batch group_id fun_identify fun_deduplicate).map strip_non_fifo
  else
    send_entries batch group_id fun_identify fun_deduplicate

/-- Embedding of `SqsUtils.send_batch`.  `send_messages` is the service call
`queue.send_messages(Entries=...)` followed by `.get('Successful')`: `none`
models a response without a `Successful` key.  Returns the boolean result and
the requests issued. -/
def send_batch {α : Type} (batch : List String) (queue_name group_id : String)
    (fun_identify fun_deduplicate : List Nat → String)
    (send_messages : List SendEntry → Option (List α)) : Bool × List Request :=
  if batch.length > 0 then
    let entries := dispatched_entries batch queue_name group_id fun_identify fun_deduplicate
    let successful_writes := send_messages entries
    ((match successful_writes with
      | some ws => decide (ws.length = batch.length)
      | none => false),
     [Request.getQueueByName queue_name, Request.sendMessages entries])
  else (true, [])

/-- The delete-entry list comprehension of `remove_batch`:
`Id = hashlib.sha1(receipt.encode('utf-8')).hexdigest()`. -/
def delete_entries (receipts : List String) : List DeleteEntry :=
  receipts.map fun receipt =>
    { Id := hexdigest (utf8Bytes receipt), ReceiptHandle := receipt }

/-- Embedding of `SqsUtils.remove_batch`.  `get_queue_url` and
`delete_message_batch` are the two service calls inside the `try` block; the
delete response is the top-level response dict, modelled as an association
list of its keys (Python `len(response)` is the number of keys).  A raised
`ClientError` with code `ReceiptHandleIsInvalid` is downgraded to
`Except.ok false`; any other `ClientError` is re-raised. -/
def remove_batch {α : Type} (queue_name : String) (receipts : List String)
    (get_queue_url : String → Except ClientError String)
    (delete_message_batch : String → List DeleteEntry → Except ClientError (List (String × α))) :
    Except ClientError Bool × List Request :=
  if receipts.length = 0 then (Except.ok true, [])
  else
    match get_queue_url queue_name with
    | Except.error e =>
        (if e.Code = "ReceiptHandleIsInvalid" then Except.ok false else Except.error e,
         [Request.getQueueUrl queue_name])
    | Except.ok url =>
        match delete_message_batch url (delete_entries receipts) with
        | Except.ok response =>
            (Except.ok (decide (response.length = receipts.length)),
             [Request.getQueueUrl queue_name,
              Request.deleteMessageBatch url (delete_entries receipts)])
        | Except.error e =>
            (if e.Code = "ReceiptHandleIsInvalid" then Except.ok false else Except.error e,
             [Request.getQueueUrl queue_name,
              Request.deleteMessageBatch url (delete_entries receipts)])

/-- The spec's "number of delete results returned" by a delete call: the
entries listed under the `Successful` and `Failed` keys of the response. -/
def deleteResultsCount (response : List (String × List String)) : Nat :=
  ((response.filter fun kv => kv.1 = "Successful" ∨ kv.1 = "Failed").map
    fun kv => kv.2.length).sum

/-- Embedding of `SqsUtils.__receive_many`: resolve the queue url, issue one
`receive_message` call, and turn the optional `Messages` list into
`(Body, ReceiptHandle)` pairs (empty when absent or empty). -/
def receive_many_impl (queue_name : String)
    (hide_for_seconds poll_for_seconds max_batch_size : Int)
    (get_queue_url : String → String)
    (receive_message : String → Int → Int → Int → Option (List Message)) :
    List (String × String) :=
  let response := receive_message (get_queue_url queue_name) max_batch_size
    hide_for_seconds poll_for_seconds
  match response with
  | some messages =>
      if messages.length > 0 then messages.map (fun m => (m.Body, m.ReceiptHandle)) else []
  | none => []

/-- Result of `receive_many`: the Python function returns either a list of
bodies or a list of `(body, receipt)` pairs depending on `with_receipt`. -/
inductive ReceiveResult where
  | withReceipts (messages : List (String × String))
  | bodiesOnly (bodies : List String)
deriving DecidableEq, Repr

/-- Embedding of `SqsUtils.receive_many`. -/
def receive_many (queue_name : String)
    (hide_for_seconds poll_for_seconds max_batch_size : Int) (with_receipt : Bool)
    (get_queue_url : String → String)
    (receive_message : String → Int → Int → Int → Option (List Message)) :
    ReceiveResult :=
  let messages := receive_many_impl queue_name hide_for_seconds poll_for_seconds
    max_batch_size get_queue_url receive_message
  if with_receipt then ReceiveResult.withReceipts messages
  else ReceiveResult.bodiesOnly (messages.map Prod.fst)

/-- Embedding of `SqsUtils.receive_one`: call `receive_many` with
`max_batch_size = 1` (and the default `with_receipt = False`), then return
`batch[0]` when the batch is non-empty and `None` otherwise.  The
`withReceipts` branch is unreachable because `with_receipt` is `false`. -/
def receive_one (queue_name : String) (hide_for_seconds poll_for_seconds : Int)
    (get_queue_url : String → String)
    (receive_message : String → Int → Int → Int → Option (List Message)) :
    Option String :=
  match receive_many queue_name hide_for_seconds poll_for_seconds 1 false
      get_queue_url receive_message with
  | ReceiveResult.bodiesOnly (b :: _) => some b
  | ReceiveResult.bodiesOnly [] => none
  | ReceiveResult.withReceipts _ => none

/-- Concrete delete response in the shape `boto3` produces for a fully
successful three-entry `delete_message_batch`: a `Successful` list with three
results plus the always-present `ResponseMetadata` key. -/
def example_delete_response : List (String × List String) :=
  [("Successful", ["msg1", "msg2", "msg3"]), ("ResponseMetadata", ["metadata"])]

end SqsUtils

namespace SqsUtils

/-- Every byte of `word32be` is below 256. -/
lemma word32be_lt (w : Nat) : ∀ b ∈ word32be w, b < 256 := by
  intro b hb
  simp [word32be] at hb
  rcases hb with rfl | rfl | rfl | rfl <;> omega

/-- The serialized SHA-1 state always has 20 bytes. -/
lemma digestBytes_length (hs : Nat × Nat × Nat × Nat × Nat) :
    (digestBytes hs).length = 20 := by
  simp [digestBytes, word32be]

/-- Every byte of the serialized SHA-1 state is below 256. -/
lemma digestBytes_lt (hs : Nat × Nat × Nat × Nat × Nat) :
    ∀ b ∈ digestBytes hs, b < 256 := by
  intro b hb
  simp only [digestBytes, List.mem_append] at hb
  rcases hb with ((((h | h) | h) | h) | h) <;> exact word32be_lt _ _ h

/-- The SHA-1 digest always has 20 bytes. -/
lemma sha1_length (msg : List Nat) : (sha1 msg).length = 20 := by
  unfold sha1
  exact digestBytes_length _

/-- Every byte of a SHA-1 digest is below 256. -/
lemma sha1_lt (msg : List Nat) : ∀ b ∈ sha1 msg, b < 256 := by
  unfold sha1
  exact digestBytes_lt _

/-- Hex-encoding a byte list doubles its length. -/
lemma flatten_byteHex_length (l : List Nat) :
    ((l.map byteHex).flatten).length = 2 * l.length := by
  induction l with
  | nil => simp
  | cons b bs ih => simp [byteHex, ih]; omega

/-- A hex digest always has 40 characters. -/
lemma hexdigest_length (msg : List Nat) : (hexdigest msg).length = 40 := by
  have h := flatten_byteHex_length (sha1 msg)
  simp [hexdigest, String.length, h, sha1_length]

/-- hexChar of a value below 16 lands in the hex alphabet. -/
lemma hexChar_mem_hex : ∀ n, n < 16 → hexChar n ∈ "0123456789abcdef".data := by
  decide

/-- Every character of a hex digest is a lowercase hex digit. -/
lemma hexdigest_mem (msg : List Nat) :
    ∀ c ∈ (hexdigest msg).data, c ∈ "0123456789abcdef".data := by
  intro c hc
  simp only [hexdigest] at hc
  rw [List.mem_flatten] at hc
  obtain ⟨l, hl, hcl⟩ := hc
  rw [List.mem_map] at hl
  obtain ⟨b, hb, rfl⟩ := hl
  have hblt := sha1_lt msg b hb
  simp [byteHex] at hcl
  rcases hcl with rfl | rfl
  · exact hexChar_mem_hex _ (by omega)
  · exact hexChar_mem_hex _ (by omega)

/-- The ids of the dispatched entries are `fun_identify` applied to the UTF-8
bytes of the bodies, whether or not the FIFO strip ran. -/
lemma dispatched_map_Id (batch : List String) (queue_name group_id : String)
    (fun_identify fun_deduplicate : List Nat → String) :
    (dispatched_entries batch queue_name group_id fun_identify fun_deduplicate).map SendEntry.Id
      = batch.map (fun m => fun_identify (utf8Bytes m)) := by
  unfold dispatched_entries send_entries
  cases h : fifo queue_name
  · rw [if_pos rfl, List.map_map, List.map_map]; rfl
  · rw [if_neg (by decide), List.map_map]; rfl

/-- The bodies of the dispatched entries are exactly the batch, whether or
not the FIFO strip ran. -/
lemma dispatched_map_Body (batch : List String) (queue_name group_id : String)
    (fun_identify fun_deduplicate : List Nat → String) :
    (dispatched_entries batch queue_name group_id fun_identify fun_deduplicate).map SendEntry.MessageBody
      = batch := by
  unfold dispatched_entries send_entries
  cases h : fifo queue_name
  · rw [if_pos rfl, List.map_map, List.map_map]; exact List.map_id batch
  · rw [if_neg (by decide), List.map_map]; exact List.map_id batch

/-- Claim C8: for every message body, the default identify function and the
default deduplicate function are the same function, hence return the same
value; the value is the hex encoding of the 20-byte SHA-1 digest of the
UTF-8 encoding of the body, so it has exactly 40 characters, all of them
lowercase hex digits.  Determinism is inherent: both defaults are pure
functions of the body bytes. -/
theorem claim8_default_id_functions (body : String) :
    fun_identify_default = fun_deduplicate_default
    ∧ fun_identify_default (utf8Bytes body) = hexdigest (utf8Bytes body)
    ∧ (sha1 (utf8Bytes body)).length = 20
    ∧ (fun_identify_default (utf8Bytes body)).length = 40
    ∧ ∀ c ∈ (fun_identify_default (utf8Bytes body)).data, c ∈ "0123456789abcdef".data := by
  refine ⟨rfl, rfl, sha1_length _, hexdigest_length _, ?_⟩
  exact hexdigest_mem _

set_option maxRecDepth 8000 in
/-- Claim C8 witness: the properties evaluated at the concrete body `"a"`,
whose digest is the known SHA-1 test vector. -/
theorem claim8_witness :
    fun_identify_default (utf8Bytes "a") = "86f7e437faa5a7fce15d1ddcb9eaeaea377667b8"
    ∧ (fun_identify_default (utf8Bytes "a")).length = 40 :=
  ⟨by rfl, (claim8_default_id_functions "a").2.2.2.1⟩

/-- Claim C9: on the empty input list, `send_batch` and `remove_batch` both
return `true` and issue no request at all (no queue-name resolution, no send
or delete call). -/
theorem claim9_empty_input_no_request {α : Type} (queue_name group_id : String)
    (fun_identify fun_deduplicate : List Nat → String)
    (send_messages : List SendEntry → Option (List α))
    (get_queue_url : String → Except ClientError String)
    (delete_message_batch : String → List DeleteEntry → Except ClientError (List (String × α))) :
    send_batch [] queue_name group_id fun_identify fun_deduplicate send_messages = (true, [])
    ∧ remove_batch queue_name [] get_queue_url delete_message_batch = (Except.ok true, []) :=
  ⟨rfl, rfl⟩

/-- Claim C10: for every batch, `send_batch` feeds the identify and
deduplicate functions the UTF-8 byte encoding of each body (not the body
string), while the dispatched entry's `MessageBody` field carries the
original string unchanged; the deduplication id on the built entries is the
deduplicate function applied to the same bytes. -/
theorem claim10_id_functions_get_utf8_bytes (batch : List String)
    (queue_name group_id : String) (fun_identify fun_deduplicate : List Nat → String) :
    (dispatched_entries batch queue_name group_id fun_identify fun_deduplicate).map SendEntry.Id
        = batch.map (fun m => fun_identify (utf8Bytes m))
    ∧ (dispatched_entries batch queue_name group_id fun_identify fun_deduplicate).map SendEntry.MessageBody
        = batch
    ∧ (send_entries batch group_id fun_identify fun_deduplicate).map SendEntry.MessageDeduplicationId
        = batch.map (fun m => some (fun_deduplicate (utf8Bytes m))) := by
  refine ⟨dispatched_map_Id .., dispatched_map_Body .., ?_⟩
  unfold send_entries
  rw [List.map_map]; rfl

/-- Claim C2 counterexample: a batch with two equal bodies gets two equal
entry ids under the default identify function, so the dispatched ids are not
pairwise distinct; the second conjunct ties the entries to the request
`send_batch` actually issues. -/
theorem claim2_counterexample :
    ¬ ((dispatched_entries ["a", "a"] "q.fifo" "default"
          fun_identify_default fun_deduplicate_default).map SendEntry.Id).Nodup
    ∧ (send_batch ["a", "a"] "q.fifo" "default" fun_identify_default
          fun_deduplicate_default (fun _ => some ([] : List Unit))).2
        = [Request.getQueueByName "q.fifo",
           Request.sendMessages (dispatched_entries ["a", "a"] "q.fifo" "default"
             fun_identify_default fun_deduplicate_default)] := by
  constructor
  · rw [dispatched_map_Id]
    simp
  · rfl

/-- Claim C2 (amended): each dispatched entry's id is the default content
hash of that entry's body, so the ids of a batch are pairwise distinct if and
only if the hashes of the bodies are pairwise distinct; in particular a batch
with repeated bodies yields repeated ids. -/
theorem claim2_amended_ids_are_body_hashes (batch : List String)
    (queue_name group_id : String) :
    (dispatched_entries batch queue_name group_id
        fun_identify_default fun_deduplicate_default).map SendEntry.Id
      = batch.map (fun m => fun_identify_default (utf8Bytes m))
    ∧ (((dispatched_entries batch queue_name group_id
          fun_identify_default fun_deduplicate_default).map SendEntry.Id).Nodup
        ↔ (batch.map (fun m => fun_identify_default (utf8Bytes m))).Nodup) := by
  have h := dispatched_map_Id batch queue_name group_id
    fun_identify_default fun_deduplicate_default
  exact ⟨h, by rw [h]⟩

/-- Claim C1: the code compares `len()` of the whole delete response dict
(its number of top-level keys) with the receipt count, not the number of
delete results.  At a fully successful three-receipt delete whose response
holds three results under `Successful` plus `ResponseMetadata` (two keys),
`remove_batch` returns `false` even though the number of delete results
equals the number of receipts. -/
theorem claim1_len_of_response_dict_bug :
    deleteResultsCount example_delete_response = (["r1", "r2", "r3"] : List String).length
    ∧ example_delete_response.length = 2
    ∧ (remove_batch "queue" ["r1", "r2", "r3"]
        (fun _ => Except.ok "url")
        (fun _ _ => Except.ok example_delete_response)).1 = Except.ok false := by
  refine ⟨by rfl, by rfl, by rfl⟩

/-- Claim C3: for every non-empty batch, `send_batch` dispatches exactly the
entries of `dispatched_entries` (second request of its trace); those entries
all carry the supplied group id and a deduplication id if and only if the
queue name ends case-insensitively in `.fifo`, and on a non-FIFO name both
fields are absent from every entry. -/
theorem claim3_fifo_field_stripping {α : Type} (batch : List String)
    (queue_name group_id : String)
    (fun_identify fun_deduplicate : List Nat → String)
    (send_messages : List SendEntry → Option (List α))
    (h : batch ≠ []) :
    (send_batch batch queue_name group_id fun_identify fun_deduplicate send_messages).2
        = [Request.getQueueByName queue_name,
           Request.sendMessages
             (dispatched_entries batch queue_name group_id fun_identify fun_deduplicate)]
    ∧ ((∀ e ∈ dispatched_entries batch queue_name group_id fun_identify fun_deduplicate,
          e.MessageGroupId = some group_id ∧ e.MessageDeduplicationId.isSome = true)
        ↔ fifo queue_name = true)
    ∧ (fifo queue_name = false →
        ∀ e ∈ dispatched_entries batch queue_name group_id fun_identify fun_deduplicate,
          e.MessageGroupId = none ∧ e.MessageDeduplicationId = none) := by
  have hl : 0 < batch.length := List.length_pos.mpr h
  have htrace : (send_batch batch queue_name group_id fun_identify fun_deduplicate
      send_messages).2
      = [Request.getQueueByName queue_name,
         Request.sendMessages
           (dispatched_entries batch queue_name group_id fun_identify fun_deduplicate)] := by
    unfold send_batch
    rw [if_pos hl]
  cases hq : fifo queue_name
  · have hdisp : dispatched_entries batch queue_name group_id fun_identify fun_deduplicate
        = (send_entries batch group_id fun_identify fun_deduplicate).map strip_non_fifo := by
      unfold dispatched_entries
      rw [hq, if_pos rfl]
    refine ⟨htrace, ?_, ?_⟩
    · constructor
      · intro hall
        exfalso
        obtain ⟨b, bs, rfl⟩ : ∃ b bs, batch = b :: bs := by
          cases batch with
          | nil => exact absurd rfl h
          | cons b bs => exact ⟨b, bs, rfl⟩
        have hmem0 : (⟨b, some group_id, fun_identify (utf8Bytes b),
              some (fun_deduplicate (utf8Bytes b))⟩ : SendEntry)
            ∈ send_entries (b :: bs) group_id fun_identify fun_deduplicate := by
          unfold send_entries
          exact List.mem_map_of_mem _ (List.mem_cons_self b bs)
        have hmem := List.mem_map_of_mem strip_non_fifo hmem0
        rw [← hdisp] at hmem
        have hgm := (hall _ hmem).1
        simp [strip_non_fifo] at hgm
      · intro htrue
        exact absurd htrue (by decide)
    · intro _ e he
      rw [hdisp] at he
      obtain ⟨e0, _, rfl⟩ := List.mem_map.mp he
      exact ⟨rfl, rfl⟩
  · have hdisp : dispatched_entries batch queue_name group_id fun_identify fun_deduplicate
        = send_entries batch group_id fun_identify fun_deduplicate := by
      unfold dispatched_entries
      rw [hq, if_neg (by decide)]
    refine ⟨htrace, ?_, ?_⟩
    · constructor
      · intro _
        rfl
      · intro _ e he
        rw [hdisp] at he
        unfold send_entries at he
        obtain ⟨m, _, rfl⟩ := List.mem_map.mp he
        exact ⟨rfl, rfl⟩
    · intro hfalse
      exact absurd hfalse (by decide)

/-- Claim C3 witness: on a one-message batch to a FIFO-named queue, the
request trace is resolution followed by one send with the built entries. -/
theorem claim3_witness :
    (send_batch ["m"] "Queue.fifo" "g" (fun _ => "i") (fun _ => "d")
        (fun _ => some ([] : List Unit))).2
      = [Request.getQueueByName "Queue.fifo",
         Request.sendMessages
           (dispatched_entries ["m"] "Queue.fifo" "g" (fun _ => "i") (fun _ => "d"))] :=
  (claim3_fifo_field_stripping ["m"] "Queue.fifo" "g" (fun _ => "i") (fun _ => "d")
    (fun _ => some ([] : List Unit)) (List.cons_ne_nil _ _)).1

/-- Claim C4: for every non-empty batch, `send_batch` returns `true` if and
only if the service response carries a `Successful` list whose length equals
the batch size; any partial failure yields `false`.  The embedding is a total
function, so no exception is raised on partial failure. -/
theorem claim4_true_iff_all_successful {α : Type} (batch : List String)
    (queue_name group_id : String)
    (fun_identify fun_deduplicate : List Nat → String)
    (send_messages : List SendEntry → Option (List α))
    (h : batch ≠ []) :
    (send_batch batch queue_name group_id fun_identify fun_deduplicate send_messages).1 = true
      ↔ ∃ ws, send_messages
            (dispatched_entries batch queue_name group_id fun_identify fun_deduplicate)
          = some ws ∧ ws.length = batch.length := by
  have hl : 0 < batch.length := List.length_pos.mpr h
  cases hsrv : send_messages
      (dispatched_entries batch queue_name group_id fun_identify fun_deduplicate) with
  | none => simp [send_batch, hl, hsrv]
  | some ws => simp [send_batch, hl, hsrv]

/-- Claim C4 witness: a batch of three messages of which the service reports
only two successful makes `send_batch` return `false`. -/
theorem claim4_witness :
    (send_batch ["m1", "m2", "m3"] "q" "g" (fun _ => "i") (fun _ => "d")
        (fun _ => some [(), ()])).1 = false := by
  refine Bool.eq_false_iff.mpr fun hT => ?_
  obtain ⟨ws, hws, hlen⟩ :=
    (claim4_true_iff_all_successful ["m1", "m2", "m3"] "q" "g" (fun _ => "i") (fun _ => "d")
      (fun _ => some [(), ()]) (List.cons_ne_nil _ _)).mp hT
  have hws2 : some [(), ()] = some ws := hws
  injection hws2 with hws3
  rw [← hws3] at hlen
  simp at hlen

/-- Claim C5: for every non-empty receipts list whose queue resolves, when
the delete call raises a `ClientError` the error code decides the outcome:
`ReceiptHandleIsInvalid` is downgraded to `Except.ok false`, and any other
code is re-raised unmodified. -/
theorem claim5_invalid_receipt_downgraded {α : Type} (queue_name url : String)
    (receipts : List String)
    (get_queue_url : String → Except ClientError String)
    (delete_message_batch : String → List DeleteEntry → Except ClientError (List (String × α)))
    (e : ClientError) (h : receipts ≠ [])
    (hres : get_queue_url queue_name = Except.ok url)
    (herr : delete_message_batch url (delete_entries receipts) = Except.error e) :
    (e.Code = "ReceiptHandleIsInvalid" →
      (remove_batch queue_name receipts get_queue_url delete_message_batch).1
        = Except.ok false)
    ∧ (e.Code ≠ "ReceiptHandleIsInvalid" →
      (remove_batch queue_name receipts get_queue_url delete_message_batch).1
        = Except.error e) := by
  have hlen : ¬ receipts.length = 0 := by
    intro hl0
    exact h (List.length_eq_zero.mp hl0)
  constructor
  · intro hc
    unfold remove_batch
    rw [if_neg hlen]
    simp only [hres, herr]
    rw [if_pos hc]
  · intro hc
    unfold remove_batch
    rw [if_neg hlen]
    simp only [hres, herr]
    rw [if_neg hc]

/-- Claim C5 witness: a one-receipt delete where the service raises
`ReceiptHandleIsInvalid` yields `Except.ok false`, and one where it raises
`AccessDenied` re-raises that very error. -/
theorem claim5_witness :
    (remove_batch "q" ["r"] (fun _ => Except.ok "u")
        (fun _ _ => (Except.error { Code := "ReceiptHandleIsInvalid", Msg := "stale" } :
          Except ClientError (List (String × Unit))))).1 = Except.ok false
    ∧ (remove_batch "q" ["r"] (fun _ => Except.ok "u")
        (fun _ _ => (Except.error { Code := "AccessDenied", Msg := "denied" } :
          Except ClientError (List (String × Unit))))).1
        = Except.error { Code := "AccessDenied", Msg := "denied" } := by
  constructor
  · exact (claim5_invalid_receipt_downgraded "q" "u" ["r"] _ _
      { Code := "ReceiptHandleIsInvalid", Msg := "stale" }
      (List.cons_ne_nil _ _) rfl rfl).1 rfl
  · exact (claim5_invalid_receipt_downgraded "q" "u" ["r"] _ _
      { Code := "AccessDenied", Msg := "denied" }
      (List.cons_ne_nil _ _) rfl rfl).2 (by decide)

/-- Claim C6: whatever the service returns, `receive_many` with
`with_receipt = false` yields exactly the bodies in the order received, with
`with_receipt = true` the `(body, receipt)` pairs in the order received, and
an empty sequence when the service reports no messages. -/
theorem claim6_receive_many_shapes (queue_name : String)
    (hide_for_seconds poll_for_seconds max_batch_size : Int)
    (get_queue_url : String → String)
    (receive_message : String → Int → Int → Int → Option (List Message)) :
    (∀ msgs, receive_message (get_queue_url queue_name) max_batch_size
          hide_for_seconds poll_for_seconds = some msgs →
      receive_many queue_name hide_for_seconds poll_for_seconds max_batch_size false
          get_queue_url receive_message
        = ReceiveResult.bodiesOnly (msgs.map Message.Body)
      ∧ receive_many queue_name hide_for_seconds poll_for_seconds max_batch_size true
          get_queue_url receive_message
        = ReceiveResult.withReceipts (msgs.map fun m => (m.Body, m.ReceiptHandle)))
    ∧ (receive_message (get_queue_url queue_name) max_batch_size
          hide_for_seconds poll_for_seconds = none →
      receive_many queue_name hide_for_seconds poll_for_seconds max_batch_size false
          get_queue_url receive_message = ReceiveResult.bodiesOnly []
      ∧ receive_many queue_name hide_for_seconds poll_for_seconds max_batch_size true
          get_queue_url receive_message = ReceiveResult.withReceipts []) := by
  constructor
  · intro msgs hm
    constructor
    · unfold receive_many receive_many_impl
      simp only [hm]
      cases msgs with
      | nil => simp
      | cons m ms => simp [List.map_map]
    · unfold receive_many receive_many_impl
      simp only [hm]
      cases msgs with
      | nil => simp
      | cons m ms => simp
  · intro hm
    constructor
    · unfold receive_many receive_many_impl
      rw [hm]
      rfl
    · unfold receive_many receive_many_impl
      rw [hm]
      rfl

/-- Claim C6 witness: with a concrete two-message service response, the two
flag values produce the bodies and the pairs respectively. -/
theorem claim6_witness :
    receive_many "q" 3600 20 10 true (fun n => n)
        (fun _ _ _ _ => some [{ Body := "b1", ReceiptHandle := "r1" },
                              { Body := "b2", ReceiptHandle := "r2" }])
      = ReceiveResult.withReceipts [("b1", "r1"), ("b2", "r2")]
    ∧ receive_many "q" 3600 20 10 false (fun n => n)
        (fun _ _ _ _ => some [{ Body := "b1", ReceiptHandle := "r1" },
                              { Body := "b2", ReceiptHandle := "r2" }])
      = ReceiveResult.bodiesOnly ["b1", "b2"] := by
  have h := (claim6_receive_many_shapes "q" 3600 20 10 (fun n => n)
    (fun _ _ _ _ => some [{ Body := "b1", ReceiptHandle := "r1" },
                          { Body := "b2", ReceiptHandle := "r2" }])).1
    [{ Body := "b1", ReceiptHandle := "r1" }, { Body := "b2", ReceiptHandle := "r2" }] rfl
  exact ⟨h.2, h.1⟩

/-- Claim C7: `receive_one` is the `max_batch_size = 1`, `with_receipt =
false` case of `receive_many`: whenever that call returns a body list,
`receive_one` returns its optional head; it returns `none` when the service
reports no messages and the first body when at least one is present. -/
theorem claim7_receive_one_refines_receive_many (queue_name : String)
    (hide_for_seconds poll_for_seconds : Int)
    (get_queue_url : String → String)
    (receive_message : String → Int → Int → Int → Option (List Message)) :
    (∀ bs, receive_many queue_name hide_for_seconds poll_for_seconds 1 false
          get_queue_url receive_message = ReceiveResult.bodiesOnly bs →
      receive_one queue_name hide_for_seconds poll_for_seconds
          get_queue_url receive_message = bs.head?)
    ∧ (receive_message (get_queue_url queue_name) 1 hide_for_seconds poll_for_seconds
          = none →
      receive_one queue_name hide_for_seconds poll_for_seconds
          get_queue_url receive_message = none)
    ∧ (∀ m ms, receive_message (get_queue_url queue_name) 1 hide_for_seconds
          poll_for_seconds = some (m :: ms) →
      receive_one queue_name hide_for_seconds poll_for_seconds
          get_queue_url receive_message = some m.Body) := by
  refine ⟨fun bs hbs => ?_, fun hm => ?_, fun m ms hm => ?_⟩
  · unfold receive_one
    rw [hbs]
    cases bs <;> rfl
  · unfold receive_one receive_many receive_many_impl
    rw [hm]
    rfl
  · unfold receive_one receive_many receive_many_impl
    rw [hm]
    simp

/-- Claim C7 witness: with a service returning one message, `receive_one`
returns its body; with a service returning `None`, it returns `none`. -/
theorem claim7_witness :
    receive_one "q" 3600 20 (fun n => n)
        (fun _ _ _ _ => some [{ Body := "b1", ReceiptHandle := "r1" }]) = some "b1"
    ∧ receive_one "q" 3600 20 (fun n => n) (fun _ _ _ _ => none) = none := by
  constructor
  · exact (claim7_receive_one_refines_receive_many "q" 3600 20 (fun n => n)
      (fun _ _ _ _ => some [{ Body := "b1", ReceiptHandle := "r1" }])).2.2
      { Body := "b1", ReceiptHandle := "r1" } [] rfl
  · exact (claim7_receive_one_refines_receive_many "q" 3600 20 (fun n => n)
      (fun _ _ _ _ => none)).2.1 rfl

end SqsUtils

